import Mathlib

/-!
Verification of the IrisKerasCallback notebook: a shallow embedding of the
notebook cells (dataset loading, model construction, compilation, the `fit`
call with its two callbacks, and the file inspection), together with a model,
taken from the specification, of the file-system side effects of the external
framework's TensorBoard and ModelCheckpoint callbacks.
-/

namespace IrisKeras

/-- Activation functions appearing in the notebook (`tf.nn.relu`). -/
inductive Activation where
  | relu
  deriving DecidableEq, Repr

/-- A Keras layer as configurable through the notebook's API surface.
Only `dense` is used by the notebook; the other constructors stand for the
framework's non-dense layers, so that "contains only Dense layers" is a
meaningful statement. -/
inductive Layer where
  | dense (units : Nat) (activation : Option Activation) (inputShape : Option (List Nat))
  | flatten
  | dropout (ratePercent : Nat)
  deriving DecidableEq, Repr

/-- Whether a layer is a Dense layer. -/
def Layer.isDense : Layer → Bool
  | .dense _ _ _ => true
  | _ => false

/-- The activation configured on a layer. -/
def Layer.activationOf : Layer → Option Activation
  | .dense _ a _ => a
  | _ => none

/-- `n_input = 4` from the notebook. -/
def n_input : Nat := 4

/-- `n_output = 3` from the notebook. -/
def n_output : Nat := 3

/-- The Sequential model of the notebook: the list of layers in the order the
three `model.add` calls append them. -/
def model : List Layer :=
  [ Layer.dense 10 (some Activation.relu) (some [n_input]),
    Layer.dense 10 (some Activation.relu) none,
    Layer.dense n_output none none ]

/-- Feature dimension produced by feeding a `d`-dimensional input to a layer. -/
def applyLayerShape (d : Nat) : Layer → Nat
  | .dense u _ _ => u
  | .flatten => d
  | .dropout _ => d

/-- The shape trace of a Sequential model: the feature dimension after each
layer, starting from the input dimension, data flowing forward through the
layers in the order they were added. -/
def shapeTrace (d : Nat) : List Layer → List Nat
  | [] => [d]
  | l :: ls => d :: shapeTrace (applyLayerShape d l) ls

/-- Trainable parameters of a Dense layer: a weight matrix `inDim × units`
plus one bias per unit. -/
def denseParams (inDim units : Nat) : Nat := inDim * units + units

/-- Total trainable parameter count of a Sequential model fed a
`d`-dimensional input. -/
def paramCount (d : Nat) : List Layer → Nat
  | [] => 0
  | .dense u _ _ :: ls => denseParams d u + paramCount u ls
  | .flatten :: ls => paramCount d ls
  | .dropout _ :: ls => paramCount d ls

/-- The loss configuration from `model.compile`:
`tf.keras.losses.SparseCategoricalCrossentropy(from_logits=True)`. -/
structure LossConfig where
  name : String
  from_logits : Bool
  deriving DecidableEq, Repr

/-- The optimizer configuration from `model.compile`:
`tf.keras.optimizers.Adam(learning_rate=0.01)`; the learning rate is the
rational 1/100. -/
structure OptimizerConfig where
  name : String
  learningRate : ℚ
  deriving DecidableEq, Repr

/-- The arguments of the notebook's single `model.compile` call. -/
structure CompileArgs where
  optimizer : OptimizerConfig
  loss : LossConfig
  metrics : List String
  deriving DecidableEq, Repr

/-- The notebook's `model.compile(...)` call. -/
def compileArgs : CompileArgs :=
  { optimizer := { name := "Adam", learningRate := 1 / 100 },
    loss := { name := "SparseCategoricalCrossentropy", from_logits := true },
    metrics := ["SparseCategoricalAccuracy"] }

/-- A wall-clock timestamp as read by `dt.datetime.now()` at the moment the
TensorBoard callback is constructed. -/
structure Timestamp where
  year : Nat
  month : Nat
  day : Nat
  hour : Nat
  minute : Nat
  second : Nat
  deriving DecidableEq, Repr

/-- Modelled from the spec: Python's zero-padding to a minimum width of 2, as
used both by `strftime` for the `%m %d %H %M %S` directives and by the format
directive `02d`; the external formatting code is not part of this repository. -/
def pad2 (n : Nat) : String :=
  if n < 10 then "0" ++ toString n else toString n

/-- Modelled from the spec: Python's zero-padding to a minimum width of 4, as
used by `strftime` for the `%Y` directive. -/
def pad4 (n : Nat) : String :=
  if n < 10 then "000" ++ toString n
  else if n < 100 then "00" ++ toString n
  else if n < 1000 then "0" ++ toString n
  else toString n

/-- Expansion of a single `strftime` directive character. -/
def strftimeDir (t : Timestamp) (c : Char) : String :=
  if c = 'Y' then pad4 t.year
  else if c = 'm' then pad2 t.month
  else if c = 'd' then pad2 t.day
  else if c = 'H' then pad2 t.hour
  else if c = 'M' then pad2 t.minute
  else if c = 'S' then pad2 t.second
  else String.singleton c

/-- Modelled from the spec: the core of Python's `datetime.strftime` for the
directives the notebook uses (`%Y %m %d %H %M %S`); a `%` introduces a
directive, every other character is copied verbatim. The external
implementation is not part of this repository. -/
def strftimeAux (t : Timestamp) : List Char → String
  | [] => ""
  | c :: rest =>
    if c = '%' then
      match rest with
      | [] => String.singleton c
      | d :: rest2 => strftimeDir t d ++ strftimeAux t rest2
    else
      String.singleton c ++ strftimeAux t rest

/-- `strftime fmt t` renders the timestamp `t` with the format string `fmt`. -/
def strftime (fmt : String) (t : Timestamp) : String :=
  strftimeAux t fmt.data

/-- The format string passed to `strftime` in the TensorBoard callback. -/
def tensorBoardTimeFormat : String := "%Y-%m-%d-%H-%M-%S"

/-- The `log_dir` argument of the TensorBoard callback:
`./logs/{}` formatted with the timestamp taken at callback construction. -/
def tensorBoardLogDir (t : Timestamp) : String :=
  "./logs/" ++ strftime tensorBoardTimeFormat t

/-- The `save_freq` argument of the ModelCheckpoint callback. -/
inductive SaveFreq where
  | epoch
  | batches (n : Nat)
  deriving DecidableEq, Repr

/-- The callback objects the notebook can construct: both constructors are
off-the-shelf framework classes; this repository defines no callback class of
its own, so no constructor of this type stands for repository-defined code. -/
inductive Callback where
  | tensorBoard (logDir : String)
  | modelCheckpoint (filepath : String) (saveFreq : SaveFreq)
  deriving DecidableEq, Repr

/-- The `filepath` argument of the ModelCheckpoint callback, with the literal
braces of the source written as their character codes. -/
def checkpointFilepathTemplate : String := "./checkpoints/model\x7bepoch:02d\x7d.h5"

/-- The notebook's `callbacks` list: one TensorBoard callback and one
ModelCheckpoint callback, in that order. -/
def callbacks (t : Timestamp) : List Callback :=
  [ Callback.tensorBoard (tensorBoardLogDir t),
    Callback.modelCheckpoint checkpointFilepathTemplate SaveFreq.epoch ]

/-- The notebook's references to the loaded dataset's arrays
(`iris.data`, `iris.target`). -/
inductive DataRef where
  | irisData
  | irisTarget
  deriving DecidableEq, Repr

/-- The arguments of the notebook's `model.fit` call. -/
structure FitCall where
  x : DataRef
  y : DataRef
  batch_size : Nat
  epochs : Nat
  verbose : Nat
  callbackList : List Callback
  deriving DecidableEq, Repr

/-- The notebook's `model.fit(...)` call, parameterised by the timestamp read
when the callbacks cell constructed the TensorBoard callback. -/
def fitCall (t : Timestamp) : FitCall :=
  { x := DataRef.irisData,
    y := DataRef.irisTarget,
    batch_size := 32,
    epochs := 50,
    verbose := 1,
    callbackList := callbacks t }

/-- Modelled from the spec: the external dataset loader `load_iris`, not part
of this repository; the Iris dataset has 150 samples of 4 features in 3
classes, corroborated by the notebook's recorded outputs (150 training
samples, a working `(4,)` input shape and 3 output units). -/
structure Dataset where
  numSamples : Nat
  numFeatures : Nat
  numClasses : Nat
  deriving DecidableEq, Repr

/-- The dataset the notebook loads. -/
def iris : Dataset := { numSamples := 150, numFeatures := 4, numClasses := 3 }

/-- Modelled from the spec: the training routine "trains it for a fixed number
of epochs" — the external `fit` performs exactly its `epochs` argument of
epochs, irrespective of the dataset; no stopping criterion is configured. -/
def epochsCompleted (fc : FitCall) (_ds : Dataset) : Nat := fc.epochs

/-- `consumePat pat l` strips `pat` from the front of `l`, returning the
remainder, or `none` when `pat` is not a front segment of `l`. -/
def consumePat : List Char → List Char → Option (List Char)
  | [], rest => some rest
  | _ :: _, [] => none
  | p :: ps, c :: cs => if p = c then consumePat ps cs else none

/-- `splitAtPat pat l` splits `l` around the first occurrence of `pat`,
returning the part before it and the part after it. -/
def splitAtPat (pat : List Char) : List Char → Option (List Char × List Char)
  | [] => none
  | c :: cs =>
    match consumePat pat (c :: cs) with
    | some rest => some ([], rest)
    | none =>
      match splitAtPat pat cs with
      | some (pre, suf) => some (c :: pre, suf)
      | none => none

/-- The replacement field of the checkpoint filepath, with the literal braces
of the source written as their character codes. -/
def epochField : String := "\x7bepoch:02d\x7d"

/-- Modelled from the spec: Python's `str.format` on the one replacement field
the notebook's filepath uses — the first occurrence of the field is replaced
by the epoch number zero-padded to a minimum width of 2; the external
implementation is not part of this repository. -/
def pyFormatEpoch (template : String) (e : Nat) : String :=
  match splitAtPat epochField.data template.data with
  | some (pre, suf) => String.mk pre ++ pad2 e ++ String.mk suf
  | none => template

/-- Modelled from the spec: the framework's built-in ModelCheckpoint callback
with `save_freq` set to per-epoch writes, at the end of each completed epoch,
one checkpoint file whose name is the filepath template formatted with the
1-based number of that epoch; the callback implementation is not part of this
repository. `checkpointFilesAfter template n` is the list of files written
during the first `n` completed epochs, in the order written. -/
def checkpointFilesAfter (template : String) (epochs : Nat) : List String :=
  (List.range epochs).map (fun i => pyFormatEpoch template (i + 1))

/-- The top-level steps of the notebook, one constructor per code cell. -/
inductive Step where
  | importLibraries
  | loadDataset
  | buildModel
  | compileModel
  | fitWithCallbacks
  | inspectFiles
  deriving DecidableEq, Repr

/-- The notebook's code cells in document order. -/
def notebookSteps : List Step :=
  [ Step.importLibraries,
    Step.loadDataset,
    Step.buildModel,
    Step.compileModel,
    Step.fitWithCallbacks,
    Step.inspectFiles ]

/-- A Python statement of the notebook, abstracted to what matters for
exception flow: a call into the external framework (which may raise), or a
try/except statement (which the notebook never uses). -/
inductive PyStmt where
  | frameworkCall (callee : String)
  | tryExcept (body : PyStmt) (handler : PyStmt)
  deriving DecidableEq, Repr

/-- Whether a statement contains a try/except anywhere. -/
def PyStmt.catchesExceptions : PyStmt → Bool
  | .frameworkCall _ => false
  | .tryExcept _ _ => true

/-- Run one statement under an oracle `raises` giving, for each framework
callee, the exception it raises (or `none`): a raising call produces that
error; a try/except swallows a raised body error and runs its handler. -/
def runStmt (raises : String → Option String) : PyStmt → Except String Unit
  | .frameworkCall n =>
    match raises n with
    | some e => Except.error e
    | none => Except.ok ()
  | .tryExcept body handler =>
    match runStmt raises body with
    | Except.error _ => runStmt raises handler
    | Except.ok _ => Except.ok ()

/-- Run a cell list in order; an uncaught error aborts the remaining cells. -/
def runCells (raises : String → Option String) : List PyStmt → Except String Unit
  | [] => Except.ok ()
  | s :: rest =>
    match runStmt raises s with
    | Except.error e => Except.error e
    | Except.ok _ => runCells raises rest

/-- The exception a top-level statement lets escape, for statements free of
try/except. -/
def stmtRaised (raises : String → Option String) : PyStmt → Option String
  | .frameworkCall n => raises n
  | .tryExcept _ _ => none

/-- The first exception raised along a cell list. -/
def firstRaised (raises : String → Option String) : List PyStmt → Option String
  | [] => none
  | s :: rest =>
    match stmtRaised raises s with
    | some e => some e
    | none => firstRaised raises rest

/-- The framework calls the notebook's cells make, in order; every statement
is a bare call with no surrounding try/except. -/
def notebookStmts : List PyStmt :=
  [ PyStmt.frameworkCall "load_iris",
    PyStmt.frameworkCall "tf.keras.Sequential",
    PyStmt.frameworkCall "model.add",
    PyStmt.frameworkCall "model.add",
    PyStmt.frameworkCall "model.add",
    PyStmt.frameworkCall "model.summary",
    PyStmt.frameworkCall "model.compile",
    PyStmt.frameworkCall "tf.keras.callbacks.TensorBoard",
    PyStmt.frameworkCall "tf.keras.callbacks.ModelCheckpoint",
    PyStmt.frameworkCall "model.fit",
    PyStmt.frameworkCall "ls" ]

theorem singleton_dash : String.singleton '-' = "-" := rfl

/-- Helper: over statements free of try/except, running the cells yields
exactly the first exception any framework call raises, unmodified. -/
theorem runCells_eq_firstRaised (raises : String → Option String) (l : List PyStmt)
    (h : l.all (fun s => !s.catchesExceptions) = true) :
    runCells raises l =
      (match firstRaised raises l with
       | some e => Except.error e
       | none => Except.ok ()) := by
  induction l with
  | nil => rfl
  | cons s rest ih =>
    simp only [List.all_cons, Bool.and_eq_true] at h
    obtain ⟨h1, h2⟩ := h
    cases s with
    | frameworkCall n =>
      simp only [runCells, firstRaised, stmtRaised, runStmt]
      cases raises n with
      | some e => rfl
      | none => simpa using ih h2
    | tryExcept b hd => simp [PyStmt.catchesExceptions] at h1

/-- C1: training with the ModelCheckpoint callback (filepath template under
the checkpoints directory, saved every epoch) writes exactly one checkpoint
file per completed epoch — `n` completed epochs yield `n` files, pairwise
distinct — so a run of 50 epochs yields exactly 50 checkpoint files. -/
theorem checkpoint_one_file_per_epoch :
    (checkpointFilesAfter checkpointFilepathTemplate 50).length = 50
    ∧ (checkpointFilesAfter checkpointFilepathTemplate 50).Nodup
    ∧ ∀ n : Nat, (checkpointFilesAfter checkpointFilepathTemplate n).length = n := by
  refine ⟨by decide, by decide, ?_⟩
  intro n
  simp [checkpointFilesAfter]

/-- C2: the Sequential model contains exactly three layers, all of them Dense,
and data flows forward through them in the order added, carrying the feature
dimension 4 → 10 → 10 → 3. -/
theorem model_is_three_dense_layers :
    model.length = 3 ∧ model.all Layer.isDense = true
    ∧ shapeTrace n_input model = [4, 10, 10, 3] := by
  decide

/-- C3: `model.fit` is invoked with the literal `epochs = 50`, and the
training loop completes exactly 50 epochs for every execution, independent of
the timestamp at callback construction and of the dataset. -/
theorem fit_fixed_fifty_epochs (t : Timestamp) (ds : Dataset) :
    (fitCall t).epochs = 50 ∧ epochsCompleted (fitCall t) ds = 50 :=
  ⟨rfl, rfl⟩

/-- C4: the TensorBoard callback's log directory is a subdirectory of ./logs
whose name is the wall-clock time at callback construction rendered with the
format `%Y-%m-%d-%H-%M-%S`, so each run produces one new timestamped
subdirectory under the logs directory. -/
theorem tensorboard_logdir_timestamped (t : Timestamp) :
    tensorBoardLogDir t =
      "./logs/" ++ pad4 t.year ++ "-" ++ pad2 t.month ++ "-" ++ pad2 t.day ++ "-"
        ++ pad2 t.hour ++ "-" ++ pad2 t.minute ++ "-" ++ pad2 t.second
    ∧ tensorBoardLogDir t = "./logs/" ++ strftime tensorBoardTimeFormat t
    ∧ (callbacks t).head? = some (Callback.tensorBoard (tensorBoardLogDir t)) := by
  refine ⟨?_, rfl, rfl⟩
  simp [tensorBoardLogDir, strftime, tensorBoardTimeFormat, strftimeAux, strftimeDir,
    singleton_dash, String.append_assoc]

/-- C5: `fit` receives exactly two callback objects — first a TensorBoard
callback, then a ModelCheckpoint callback — both constructors of the
framework-owned `Callback` type; the repository defines no callback of its
own. -/
theorem fit_two_offshelf_callbacks (t : Timestamp) :
    (fitCall t).callbackList.length = 2
    ∧ (fitCall t).callbackList =
        [ Callback.tensorBoard (tensorBoardLogDir t),
          Callback.modelCheckpoint checkpointFilepathTemplate SaveFreq.epoch ] :=
  ⟨rfl, rfl⟩

/-- C6: in every execution, each top-level step occurs exactly once and in the
fixed document order: load dataset, then build model, then compile, then fit
with the callbacks, and only afterwards inspect the files on disk. -/
theorem notebook_step_order :
    notebookSteps.count Step.loadDataset = 1
    ∧ notebookSteps.count Step.buildModel = 1
    ∧ notebookSteps.count Step.compileModel = 1
    ∧ notebookSteps.count Step.fitWithCallbacks = 1
    ∧ notebookSteps.count Step.inspectFiles = 1
    ∧ notebookSteps.indexOf Step.loadDataset < notebookSteps.indexOf Step.buildModel
    ∧ notebookSteps.indexOf Step.buildModel < notebookSteps.indexOf Step.compileModel
    ∧ notebookSteps.indexOf Step.compileModel < notebookSteps.indexOf Step.fitWithCallbacks
    ∧ notebookSteps.indexOf Step.fitWithCallbacks < notebookSteps.indexOf Step.inspectFiles := by
  decide

/-- C7: no statement of the notebook is a try/except, and consequently, for
every assignment of exceptions to framework calls, running the notebook's
cells surfaces the first raised exception unmodified — no recovery or
fallback intervenes. -/
theorem no_exception_handling :
    notebookStmts.all (fun s => !s.catchesExceptions) = true
    ∧ ∀ raises : String → Option String,
        runCells raises notebookStmts =
          (match firstRaised raises notebookStmts with
           | some e => Except.error e
           | none => Except.ok ()) :=
  ⟨by decide, fun raises => runCells_eq_firstRaised raises notebookStmts (by decide)⟩

/-- C8: the model's last layer is the Dense output layer with no activation
(raw logits) and the compiled loss is constructed with `from_logits = true`,
so the logits-vs-probabilities convention is consistent between the last layer
and the loss. -/
theorem logits_convention_consistent :
    model.getLast? = some (Layer.dense n_output none none)
    ∧ model.getLast?.map Layer.activationOf = some none
    ∧ compileArgs.loss.from_logits = true := by
  decide

/-- C9: checkpoint filenames use a zero-padded two-digit epoch number starting
at 01: the file written at the end of epoch `k` (for `k` in 1..50) is the
checkpoints-directory entry `model` ++ `k` zero-padded to width 2 ++ `.h5`,
and the padded number has exactly two digits. -/
theorem checkpoint_filename_zero_padded (k : Nat) (h1 : 1 ≤ k) (h2 : k ≤ 50) :
    (checkpointFilesAfter checkpointFilepathTemplate 50).get? (k - 1) =
      some ("./checkpoints/" ++ ("model" ++ pad2 k ++ ".h5"))
    ∧ (pad2 k).length = 2 := by
  interval_cases k <;> exact ⟨rfl, rfl⟩

/-- Witness for C9 at the first and last epochs of the run. -/
theorem checkpoint_filename_zero_padded_witness :
    ((checkpointFilesAfter checkpointFilepathTemplate 50).get? 0 =
        some ("./checkpoints/" ++ ("model" ++ pad2 1 ++ ".h5"))
      ∧ (pad2 1).length = 2)
    ∧ ((checkpointFilesAfter checkpointFilepathTemplate 50).get? 49 =
        some ("./checkpoints/" ++ ("model" ++ pad2 50 ++ ".h5"))
      ∧ (pad2 50).length = 2) :=
  ⟨checkpoint_filename_zero_padded 1 (by decide) (by decide),
   checkpoint_filename_zero_padded 50 (by decide) (by decide)⟩

/-- C10: the network's dimensions match the loaded Iris dataset — input shape
(4,) equals its 4 features, the output layer's 3 units equal its 3 classes,
both hidden layers are Dense with 10 ReLU units, and the total trainable
parameter count is exactly 193 = (4·10+10) + (10·10+10) + (10·3+3). -/
theorem model_dims_match_iris :
    n_input = iris.numFeatures
    ∧ n_output = iris.numClasses
    ∧ model.head? = some (Layer.dense 10 (some Activation.relu) (some [iris.numFeatures]))
    ∧ model.get? 1 = some (Layer.dense 10 (some Activation.relu) none)
    ∧ model.get? 2 = some (Layer.dense iris.numClasses none none)
    ∧ paramCount n_input model = 193
    ∧ 193 = 4 * 10 + 10 + (10 * 10 + 10) + (10 * 3 + 3) := by
  decide

end IrisKeras
